import Mathlib

/-!
Shallow embedding of `homework.py`, a fitness-tracking calculator with a base
`Training` class, three variants (`Running`, `SportsWalking`, `Swimming`),
an `InfoMessage` formatter and a `read_package` factory.  Python floats are
modelled as exact rationals (`ℚ`); Python float floor division `//` becomes
`Int.floor` of the exact quotient; raising an exception becomes an
`Except.error` value.
-/

namespace Homework

/-- Mirrors the data fields of the `InfoMessage` dataclass
(`training_type`, `duration`, `distance`, `speed`, `calories`). -/
structure InfoMessage where
  training_type : String
  duration : ℚ
  distance : ℚ
  speed : ℚ
  calories : ℚ
deriving DecidableEq

/-- Three decimal digits, zero padded: the fractional part `k < 1000` of a
value rendered by the `:.3f` format specifier. -/
def pad3 (k : ℕ) : String :=
  String.mk [Nat.digitChar (k / 100 % 10), Nat.digitChar (k / 10 % 10), Nat.digitChar (k % 10)]

/-- Models the `:.3f` fixed-point format of CPython `str.format` on the exact
rational value: round to three decimal places (half away from zero on the
exact rational; CPython resolves ties on the binary double instead, which
agrees everywhere the third decimal of the exact value is not a tie), then
print sign, integer part, a dot, and exactly three fractional digits. -/
def fix3 (q : ℚ) : String :=
  (if ⌊q * 1000 + 1 / 2⌋ < 0 then ("-") else (""))
    ++ toString ((⌊q * 1000 + 1 / 2⌋).natAbs / 1000)
    ++ (".")
    ++ pad3 ((⌊q * 1000 + 1 / 2⌋).natAbs % 1000)

/-- A field name of `InfoMessage`, as interpolated by `string_ru`. -/
inductive MsgField where
  | training_type
  | duration
  | distance
  | speed
  | calories
deriving DecidableEq

/-- One piece of the `string_ru` template: a literal run of text, or a
format-spec interpolation of one field. -/
inductive TplPiece where
  | lit (s : String)
  | fmt (f : MsgField)
deriving DecidableEq

/-- The `string_ru` template of `InfoMessage`: literal text alternating with
`{training_type}` (plain) and `{duration:.3f}`, `{distance:.3f}`,
`{speed:.3f}`, `{calories:.3f}` interpolations, in source order. -/
def string_ru : List TplPiece :=
  [TplPiece.lit ("Тип тренировки: "), TplPiece.fmt MsgField.training_type,
   TplPiece.lit ("; Длительность: "), TplPiece.fmt MsgField.duration,
   TplPiece.lit (" ч.; Дистанция: "), TplPiece.fmt MsgField.distance,
   TplPiece.lit (" км; Ср. скорость: "), TplPiece.fmt MsgField.speed,
   TplPiece.lit (" км/ч; Потрачено ккал: "), TplPiece.fmt MsgField.calories,
   TplPiece.lit (".")]

/-- Interpolate one field of the message: `training_type` is substituted as a
plain string, the four numeric fields through the `:.3f` format spec. -/
def renderField (i : InfoMessage) : MsgField → String
  | MsgField.training_type => i.training_type
  | MsgField.duration => fix3 i.duration
  | MsgField.distance => fix3 i.distance
  | MsgField.speed => fix3 i.speed
  | MsgField.calories => fix3 i.calories

/-- Substitute the message fields into a template, piece by piece. -/
def renderTpl (i : InfoMessage) : List TplPiece → String
  | [] => ("")
  | TplPiece.lit s :: ps => s ++ renderTpl i ps
  | TplPiece.fmt f :: ps => renderField i f ++ renderTpl i ps

/-- `InfoMessage.get_message`: `self.string_ru.format(**asdict(self))`. -/
def InfoMessage.get_message (i : InfoMessage) : String :=
  renderTpl i string_ru

/-- The `Training` base class: raw sensor inputs `action`, `duration` (hours)
and `weight` (kg).  All numbers are modelled as exact rationals. -/
structure Training where
  action : ℚ
  duration : ℚ
  weight : ℚ
deriving DecidableEq

namespace Training

def COEF_CCAL_1 : ℚ := 18

def COEF_CCAL_2 : ℚ := 20

def MIN_IN_HOUR : ℚ := 60

def M_IN_KM : ℚ := 1000

def LEN_STEP : ℚ := 0.65

/-- `Training.get_distance`: `action * LEN_STEP / M_IN_KM`.  `lenStep` is the
dynamic value of the class attribute `LEN_STEP` (`0.65` for the base class,
running and walking; `1.38` for swimming, which shadows it). -/
def get_distance (lenStep : ℚ) (t : Training) : ℚ :=
  let distance_meters : ℚ := t.action * lenStep
  let distance : ℚ := distance_meters / M_IN_KM
  distance

/-- `Training.get_mean_speed`: `get_distance() / duration`. -/
def get_mean_speed (lenStep : ℚ) (t : Training) : ℚ :=
  let avg_speed : ℚ := get_distance lenStep t / t.duration
  avg_speed

/-- `Training.get_spent_calories`: unconditionally raises
`NotImplementedError` with the dynamic class name interpolated into the
message.  `className` is `self.__class__.__name__`. -/
def get_spent_calories (className : String) (_t : Training) : Except String ℚ :=
  Except.error (("В классе ") ++ className ++ (" не определён метод <get_spent_calories>!"))

end Training

namespace Running

def COEF_CALORIE_1 : ℚ := 18

def COEF_CALORIE_2 : ℚ := 20

/-- `Running.get_spent_calories`:
`(18 * mean_speed - 20) * weight / M_IN_KM * (duration * 60)`. -/
def get_spent_calories (t : Training) : ℚ :=
  let duration_min : ℚ := t.duration * Training.MIN_IN_HOUR
  let calc_speed_coef : ℚ := COEF_CALORIE_1 * Training.get_mean_speed Training.LEN_STEP t
  let calc_avg_speed : ℚ := (calc_speed_coef - COEF_CALORIE_2) * t.weight
  let spent_calories : ℚ := calc_avg_speed / Training.M_IN_KM * duration_min
  spent_calories

end Running

/-- The `SportsWalking` subclass: adds the `height` (cm) field. -/
structure SportsWalking extends Training where
  height : ℚ
deriving DecidableEq

namespace SportsWalking

def COEFF_CALORIE_1 : ℚ := 0.035

def COEFF_CALORIE_2 : ℚ := 0.029

def COEFF_SQUARE : ℕ := 2

/-- `SportsWalking.get_spent_calories`:
`(0.035 * weight + (mean_speed ** 2 // height) * 0.029 * weight) * (duration * 60)`,
where `//` is Python float floor division, modelled by `Int.floor` of the
exact quotient. -/
def get_spent_calories (w : SportsWalking) : ℚ :=
  let duration_min : ℚ := w.duration * Training.MIN_IN_HOUR
  let calc_formula : ℚ :=
    ((⌊Training.get_mean_speed Training.LEN_STEP w.toTraining ^ COEFF_SQUARE / w.height⌋ : ℤ) : ℚ)
  let calc_weight_coef1 : ℚ := COEFF_CALORIE_1 * w.weight
  let calc_weight_coef2 : ℚ := COEFF_CALORIE_2 * w.weight
  let spent_calories : ℚ := (calc_weight_coef1 + calc_formula * calc_weight_coef2) * duration_min
  spent_calories

end SportsWalking

/-- The `Swimming` subclass: adds `length_pool` (m) and `count_pool` fields and
shadows `LEN_STEP` with `1.38`. -/
structure Swimming extends Training where
  length_pool : ℚ
  count_pool : ℚ
deriving DecidableEq

namespace Swimming

def LEN_STEP : ℚ := 1.38

def COEF_SWM : ℚ := 2

def COEF_CALORIE : ℚ := 1.1

/-- `Swimming.get_mean_speed` (overrides the base method):
`length_pool * count_pool / M_IN_KM / duration`. -/
def get_mean_speed (s : Swimming) : ℚ :=
  let distance_meters : ℚ := s.length_pool * s.count_pool
  let distance_km : ℚ := distance_meters / Training.M_IN_KM
  let avg_speed : ℚ := distance_km / s.duration
  avg_speed

/-- `Swimming.get_spent_calories`: `(mean_speed + 1.1) * 2 * weight`. -/
def get_spent_calories (s : Swimming) : ℚ :=
  let coef_speed : ℚ := get_mean_speed s + COEF_CALORIE
  let coef_swim : ℚ := coef_speed * COEF_SWM
  let spent_calories : ℚ := coef_swim * s.weight
  spent_calories

end Swimming

/-- A workout instance of one of the three concrete classes, as built by the
factory `read_package` and consumed through the polymorphic `Training`
interface. -/
inductive Workout where
  | running (t : Training)
  | sportsWalking (w : SportsWalking)
  | swimming (s : Swimming)
deriving DecidableEq

namespace Workout

/-- `self.__class__.__name__` of the instance. -/
def className : Workout → String
  | Workout.running _ => ("Running")
  | Workout.sportsWalking _ => ("SportsWalking")
  | Workout.swimming _ => ("Swimming")

/-- The `Training` fields (`action`, `duration`, `weight`) of the instance. -/
def toTraining : Workout → Training
  | Workout.running t => t
  | Workout.sportsWalking w => w.toTraining
  | Workout.swimming s => s.toTraining

/-- The dynamic value of the class attribute `LEN_STEP`: `Swimming` shadows the
inherited `0.65` with `1.38`. -/
def lenStepOf : Workout → ℚ
  | Workout.swimming _ => Swimming.LEN_STEP
  | _ => Training.LEN_STEP

/-- Dynamic dispatch of `get_distance`: no variant overrides it, so every
instance runs the base method with its own `LEN_STEP`. -/
def get_distance (w : Workout) : ℚ :=
  Training.get_distance w.lenStepOf w.toTraining

/-- Dynamic dispatch of `get_mean_speed`: `Swimming` overrides it, the other
two variants run the base method. -/
def get_mean_speed : Workout → ℚ
  | Workout.swimming s => Swimming.get_mean_speed s
  | w => Training.get_mean_speed w.lenStepOf w.toTraining

/-- Dynamic dispatch of `get_spent_calories`: every concrete variant
overrides the (raising) base method. -/
def get_spent_calories : Workout → ℚ
  | Workout.running t => Running.get_spent_calories t
  | Workout.sportsWalking w => SportsWalking.get_spent_calories w
  | Workout.swimming s => Swimming.get_spent_calories s

/-- `Training.show_training_info`: builds the `InfoMessage` from the class
name, the duration and the three computed metrics. -/
def show_training_info (w : Workout) : InfoMessage :=
  { training_type := w.className
    duration := w.toTraining.duration
    distance := w.get_distance
    speed := w.get_mean_speed
    calories := w.get_spent_calories }

/-- State-passing form of `get_distance`: the method reads `self.action` and
`self.LEN_STEP` and assigns no attribute, so it returns `self` unchanged. -/
def get_distanceS (w : Workout) : ℚ × Workout :=
  (w.get_distance, w)

/-- State-passing form of `get_mean_speed`: reads attributes only. -/
def get_mean_speedS (w : Workout) : ℚ × Workout :=
  (w.get_mean_speed, w)

/-- State-passing form of `get_spent_calories`: reads attributes only. -/
def get_spent_caloriesS (w : Workout) : ℚ × Workout :=
  (w.get_spent_calories, w)

/-- State-passing form of `show_training_info`: threads `self` through the
three metric calls in their source order, then builds the `InfoMessage`. -/
def show_training_infoS (w : Workout) : InfoMessage × Workout :=
  let d := w.get_distanceS
  let s := d.2.get_mean_speedS
  let c := s.2.get_spent_caloriesS
  ({ training_type := c.2.className
     duration := c.2.toTraining.duration
     distance := d.1
     speed := s.1
     calories := c.1 }, c.2)

end Workout

/-- An error raised by `read_package`: the validated `ValueError` for an
unknown workout-type code (with its message), or the unvalidated `TypeError`
a constructor raises when `*data` does not match its arity. -/
inductive ReadError where
  | valueError (msg : String)
  | typeError
deriving DecidableEq

/-- `Running(*data)`: the constructor takes exactly `action, duration,
weight`. -/
def mkRunning : List ℚ → Option Training
  | [action, duration, weight] => some ⟨action, duration, weight⟩
  | _ => none

/-- `SportsWalking(*data)`: `action, duration, weight, height`. -/
def mkSportsWalking : List ℚ → Option SportsWalking
  | [action, duration, weight, height] => some ⟨⟨action, duration, weight⟩, height⟩
  | _ => none

/-- `Swimming(*data)`: `action, duration, weight, length_pool, count_pool`. -/
def mkSwimming : List ℚ → Option Swimming
  | [action, duration, weight, length_pool, count_pool] =>
      some ⟨⟨action, duration, weight⟩, length_pool, count_pool⟩
  | _ => none

/-- `read_package`: looks the code up in `{SWM: Swimming, RUN: Running,
WLK: SportsWalking}`, raises `ValueError(f"{workout_type} - неизвестный тип
тренировки.")` when absent, otherwise calls the matching constructor with
`*data`. -/
def read_package (workout_type : String) (data : List ℚ) : Except ReadError Workout :=
  if workout_type = ("SWM") then
    match mkSwimming data with
    | some s => Except.ok (Workout.swimming s)
    | none => Except.error ReadError.typeError
  else if workout_type = ("RUN") then
    match mkRunning data with
    | some t => Except.ok (Workout.running t)
    | none => Except.error ReadError.typeError
  else if workout_type = ("WLK") then
    match mkSportsWalking data with
    | some w => Except.ok (Workout.sportsWalking w)
    | none => Except.error ReadError.typeError
  else
    Except.error (ReadError.valueError (workout_type ++ (" - неизвестный тип тренировки.")))

/-- The `RUN` sample of the driver: `action=15000, duration=1, weight=75`. -/
def runSample : Training := ⟨15000, 1, 75⟩

/-- The `WLK` sample of the driver: `action=9000, duration=1, weight=75,
height=180`. -/
def wlkSample : SportsWalking := ⟨⟨9000, 1, 75⟩, 180⟩

/-- The `SWM` sample of the driver: `action=720, duration=1, weight=80,
length_pool=25, count_pool=40`. -/
def swmSample : Swimming := ⟨⟨720, 1, 80⟩, 25, 40⟩

end Homework

namespace Homework

/-- Claim C1 counterexample: on the driver's Running sample
(`action=15000, duration=1, weight=75`) the calories are not the claimed
`700.05`; the code's formula evaluates to `699.75` there. -/
theorem running_sample_calories_ne : Running.get_spent_calories runSample ≠ 700.05 := by
  norm_num [Running.get_spent_calories, Running.COEF_CALORIE_1, Running.COEF_CALORIE_2,
    Training.get_mean_speed, Training.get_distance, Training.LEN_STEP, Training.M_IN_KM,
    Training.MIN_IN_HOUR, runSample]

/-- Claim C1 (amended): for every Running workout with positive duration,
`get_spent_calories` returns `((18 * mean_speed - 20) * weight / 1000) *
(duration * 60)` with `mean_speed = (action * 0.65 / 1000) / duration`; on the
sample `action=15000, duration=1, weight=75` the distance is `9.75` km, the
mean speed `9.75` km/h and the calories `699.75` kcal (not `700.05`). -/
theorem running_spent_calories_spec (t : Training) (h : 0 < t.duration) :
    Running.get_spent_calories t
      = ((18 * ((t.action * (0.65 : ℚ) / 1000) / t.duration) - 20) * t.weight / 1000)
          * (t.duration * 60)
    ∧ Training.get_distance Training.LEN_STEP runSample = 9.75
    ∧ Training.get_mean_speed Training.LEN_STEP runSample = 9.75
    ∧ Running.get_spent_calories runSample = 699.75 := by
  refine ⟨?_, ?_, ?_, ?_⟩
  · simp only [Running.get_spent_calories, Running.COEF_CALORIE_1, Running.COEF_CALORIE_2,
      Training.get_mean_speed, Training.get_distance, Training.LEN_STEP, Training.M_IN_KM,
      Training.MIN_IN_HOUR]
  · norm_num [Training.get_distance, Training.LEN_STEP, Training.M_IN_KM, runSample]
  · norm_num [Training.get_mean_speed, Training.get_distance, Training.LEN_STEP,
      Training.M_IN_KM, runSample]
  · norm_num [Running.get_spent_calories, Running.COEF_CALORIE_1, Running.COEF_CALORIE_2,
      Training.get_mean_speed, Training.get_distance, Training.LEN_STEP, Training.M_IN_KM,
      Training.MIN_IN_HOUR, runSample]

/-- Claim C1 witness: the amended Running claim instantiated on the driver's
sample, whose duration `1` is positive. -/
theorem running_spent_calories_spec_witness :
    Running.get_spent_calories runSample
      = ((18 * ((runSample.action * (0.65 : ℚ) / 1000) / runSample.duration) - 20)
          * runSample.weight / 1000) * (runSample.duration * 60)
    ∧ Training.get_distance Training.LEN_STEP runSample = 9.75
    ∧ Training.get_mean_speed Training.LEN_STEP runSample = 9.75
    ∧ Running.get_spent_calories runSample = 699.75 :=
  running_spent_calories_spec runSample (by norm_num [runSample])

/-- Claim C2: for every SportsWalking workout with positive duration and
height, `get_spent_calories` returns `((0.035 * weight) + (floor(mean_speed ^ 2
/ height) * 0.029 * weight)) * (duration * 60)` with `mean_speed = (action *
0.65 / 1000) / duration`; on the sample `action=9000, duration=1, weight=75,
height=180` the distance is `5.85` km, the mean speed `5.85` km/h, the floored
term `0` and the calories `157.5` kcal. -/
theorem sports_walking_spent_calories_spec (w : SportsWalking)
    (h1 : 0 < w.toTraining.duration) (h2 : 0 < w.height) :
    SportsWalking.get_spent_calories w
      = ((0.035 * w.weight)
          + ((⌊((w.action * (0.65 : ℚ) / 1000) / w.duration) ^ 2 / w.height⌋ : ℤ)
              * 0.029 * w.weight)) * (w.duration * 60)
    ∧ Training.get_distance Training.LEN_STEP wlkSample.toTraining = 5.85
    ∧ Training.get_mean_speed Training.LEN_STEP wlkSample.toTraining = 5.85
    ∧ (⌊Training.get_mean_speed Training.LEN_STEP wlkSample.toTraining ^ 2
        / wlkSample.height⌋ : ℤ) = 0
    ∧ SportsWalking.get_spent_calories wlkSample = 157.5 := by
  refine ⟨?_, ?_, ?_, ?_, ?_⟩
  · simp only [SportsWalking.get_spent_calories, SportsWalking.COEFF_CALORIE_1,
      SportsWalking.COEFF_CALORIE_2, SportsWalking.COEFF_SQUARE,
      Training.get_mean_speed, Training.get_distance, Training.LEN_STEP, Training.M_IN_KM,
      Training.MIN_IN_HOUR]
    ring
  · norm_num [Training.get_distance, Training.LEN_STEP, Training.M_IN_KM, wlkSample]
  · norm_num [Training.get_mean_speed, Training.get_distance, Training.LEN_STEP,
      Training.M_IN_KM, wlkSample]
  · norm_num [Training.get_mean_speed, Training.get_distance, Training.LEN_STEP,
      Training.M_IN_KM, wlkSample]
  · norm_num [SportsWalking.get_spent_calories, SportsWalking.COEFF_CALORIE_1,
      SportsWalking.COEFF_CALORIE_2, SportsWalking.COEFF_SQUARE,
      Training.get_mean_speed, Training.get_distance, Training.LEN_STEP, Training.M_IN_KM,
      Training.MIN_IN_HOUR, wlkSample]

/-- Claim C2 witness: the SportsWalking claim instantiated on the driver's
sample, whose duration `1` and height `180` are positive. -/
theorem sports_walking_spent_calories_spec_witness :
    SportsWalking.get_spent_calories wlkSample
      = ((0.035 * wlkSample.weight)
          + ((⌊((wlkSample.action * (0.65 : ℚ) / 1000) / wlkSample.duration) ^ 2
                / wlkSample.height⌋ : ℤ)
              * 0.029 * wlkSample.weight)) * (wlkSample.duration * 60)
    ∧ Training.get_distance Training.LEN_STEP wlkSample.toTraining = 5.85
    ∧ Training.get_mean_speed Training.LEN_STEP wlkSample.toTraining = 5.85
    ∧ (⌊Training.get_mean_speed Training.LEN_STEP wlkSample.toTraining ^ 2
        / wlkSample.height⌋ : ℤ) = 0
    ∧ SportsWalking.get_spent_calories wlkSample = 157.5 :=
  sports_walking_spent_calories_spec wlkSample (by norm_num [wlkSample])
    (by norm_num [wlkSample])

/-- Claim C3: for every Swimming workout with positive duration,
`get_mean_speed` returns `(length_pool * count_pool / 1000) / duration` and
`get_spent_calories` returns `(mean_speed + 1.1) * 2 * weight`; the override
differs from the base distance/duration rule on the sample, where the mean
speed is `1` km/h and the calories `336` kcal. -/
theorem swimming_speed_calories_spec (s : Swimming) (h : 0 < s.toTraining.duration) :
    Swimming.get_mean_speed s = (s.length_pool * s.count_pool / 1000) / s.duration
    ∧ Swimming.get_spent_calories s = (Swimming.get_mean_speed s + 1.1) * 2 * s.weight
    ∧ Swimming.get_mean_speed swmSample = 1
    ∧ Swimming.get_mean_speed swmSample
        ≠ Training.get_mean_speed Swimming.LEN_STEP swmSample.toTraining
    ∧ Swimming.get_spent_calories swmSample = 336 := by
  refine ⟨?_, ?_, ?_, ?_, ?_⟩
  · simp only [Swimming.get_mean_speed, Training.M_IN_KM]
  · simp only [Swimming.get_spent_calories, Swimming.COEF_CALORIE, Swimming.COEF_SWM]
  · norm_num [Swimming.get_mean_speed, Training.M_IN_KM, swmSample]
  · norm_num [Swimming.get_mean_speed, Training.get_mean_speed, Training.get_distance,
      Swimming.LEN_STEP, Training.M_IN_KM, swmSample]
  · norm_num [Swimming.get_spent_calories, Swimming.get_mean_speed, Swimming.COEF_SWM,
      Swimming.COEF_CALORIE, Training.M_IN_KM, swmSample]

/-- Claim C3 witness: the Swimming claim instantiated on the driver's sample,
whose duration `1` is positive. -/
theorem swimming_speed_calories_spec_witness :
    Swimming.get_mean_speed swmSample
      = (swmSample.length_pool * swmSample.count_pool / 1000) / swmSample.duration
    ∧ Swimming.get_spent_calories swmSample
        = (Swimming.get_mean_speed swmSample + 1.1) * 2 * swmSample.weight
    ∧ Swimming.get_mean_speed swmSample = 1
    ∧ Swimming.get_mean_speed swmSample
        ≠ Training.get_mean_speed Swimming.LEN_STEP swmSample.toTraining
    ∧ Swimming.get_spent_calories swmSample = 336 :=
  swimming_speed_calories_spec swmSample (by norm_num [swmSample])

/-- Claim C4: `read_package` maps exactly `SWM`, `RUN` and `WLK` to an
instance of the matching variant built positionally from `data`, and for any
other code it returns the `ValueError` whose message starts with the offending
code, constructing nothing. -/
theorem read_package_spec :
    (∀ a d w lp cp : ℚ, read_package ("SWM") [a, d, w, lp, cp]
        = Except.ok (Workout.swimming ⟨⟨a, d, w⟩, lp, cp⟩))
    ∧ (∀ a d w : ℚ, read_package ("RUN") [a, d, w] = Except.ok (Workout.running ⟨a, d, w⟩))
    ∧ (∀ a d w h : ℚ, read_package ("WLK") [a, d, w, h]
        = Except.ok (Workout.sportsWalking ⟨⟨a, d, w⟩, h⟩))
    ∧ (∀ (wt : String) (data : List ℚ), wt ≠ ("SWM") → wt ≠ ("RUN") → wt ≠ ("WLK") →
        read_package wt data
          = Except.error (ReadError.valueError (wt ++ (" - неизвестный тип тренировки.")))) := by
  refine ⟨fun a d w lp cp => rfl, fun a d w => rfl, fun a d w h => rfl, ?_⟩
  intro wt data h1 h2 h3
  simp only [read_package, if_neg h1, if_neg h2, if_neg h3]

/-- Claim C5 counterexample: the Swimming sample with `action=720` has
step-length distance `0.9936` km, not the claimed `0.468` km (its shadowed
`LEN_STEP` is `1.38`, not `0.65`). -/
theorem swimming_sample_distance_ne : Workout.get_distance (Workout.swimming swmSample) ≠ 0.468 := by
  norm_num [Workout.get_distance, Workout.lenStepOf, Workout.toTraining,
    Training.get_distance, Swimming.LEN_STEP, Training.M_IN_KM, swmSample]

/-- Claim C5 (amended): `get_distance` computes `action * step_length / 1000`
with the per-variant step length (`0.65` for running and walking, `1.38` for
swimming), so a Swimming workout with `action=720` gets `0.9936` km, and the
swimming speed ignores this distance (it is a function of the pool fields,
duration and weight only). -/
theorem swimming_distance_spec :
    (∀ s : Swimming, Workout.get_distance (Workout.swimming s) = s.action * (1.38 : ℚ) / 1000)
    ∧ (∀ t : Training, Workout.get_distance (Workout.running t) = t.action * (0.65 : ℚ) / 1000)
    ∧ (∀ w : SportsWalking,
        Workout.get_distance (Workout.sportsWalking w) = w.action * (0.65 : ℚ) / 1000)
    ∧ Workout.get_distance (Workout.swimming swmSample) = 0.9936
    ∧ (∀ (s : Swimming) (a : ℚ),
        Swimming.get_mean_speed ⟨⟨a, s.duration, s.weight⟩, s.length_pool, s.count_pool⟩
          = Swimming.get_mean_speed s) := by
  refine ⟨?_, ?_, ?_, ?_, ?_⟩
  · intro s
    simp only [Workout.get_distance, Workout.lenStepOf, Workout.toTraining,
      Training.get_distance, Swimming.LEN_STEP, Training.M_IN_KM]
  · intro t
    simp only [Workout.get_distance, Workout.lenStepOf, Workout.toTraining,
      Training.get_distance, Training.LEN_STEP, Training.M_IN_KM]
  · intro w
    simp only [Workout.get_distance, Workout.lenStepOf, Workout.toTraining,
      Training.get_distance, Training.LEN_STEP, Training.M_IN_KM]
  · norm_num [Workout.get_distance, Workout.lenStepOf, Workout.toTraining,
      Training.get_distance, Swimming.LEN_STEP, Training.M_IN_KM, swmSample]
  · intro s a
    simp only [Swimming.get_mean_speed]

/-- Claim C6: `get_message` is a pure function of the message fields that
interpolates them into the fixed template in source order (type, duration,
distance, speed, calories); each numeric field is rendered by `fix3`, which
always ends in a dot followed by exactly three decimal digits, so the
integer-valued speed `1` renders as `1.000`. -/
theorem info_message_render_spec :
    (∀ i : InfoMessage, i.get_message
      = ("Тип тренировки: ") ++ i.training_type ++ ("; Длительность: ") ++ fix3 i.duration
        ++ (" ч.; Дистанция: ") ++ fix3 i.distance ++ (" км; Ср. скорость: ") ++ fix3 i.speed
        ++ (" км/ч; Потрачено ккал: ") ++ fix3 i.calories ++ ("."))
    ∧ (∀ q : ℚ, ∃ a : String, ∃ k : ℕ, k < 1000 ∧ fix3 q = a ++ (".") ++ pad3 k
        ∧ (pad3 k).length = 3 ∧ (pad3 k).toList.all Char.isDigit)
    ∧ fix3 1 = ("1.000") := by
  refine ⟨?_, ?_, ?_⟩
  · intro i
    simp only [InfoMessage.get_message, string_ru, renderTpl, renderField]
    simp [String.append_assoc]
  · intro q
    refine ⟨(if ⌊q * 1000 + 1 / 2⌋ < 0 then ("-") else (""))
      ++ toString ((⌊q * 1000 + 1 / 2⌋).natAbs / 1000),
      (⌊q * 1000 + 1 / 2⌋).natAbs % 1000, Nat.mod_lt _ (by norm_num), rfl, rfl, ?_⟩
    have hd : ∀ d : ℕ, d < 10 → (Nat.digitChar d).isDigit = true := by decide
    simp only [pad3, String.toList, List.all]
    simp [hd _ (Nat.mod_lt _ (by norm_num)), hd _ (Nat.mod_lt _ (by norm_num)),
      hd _ (Nat.mod_lt _ (by norm_num))]
  · have h : ⌊(1 : ℚ) * 1000 + 1 / 2⌋ = 1000 := by norm_num
    simp only [fix3, h]
    decide

/-- Claim C7: the base `Training.get_spent_calories` never returns a value: on
every instance and dynamic class name it raises `NotImplementedError` carrying
that class name, so no base default calorie formula exists. -/
theorem base_spent_calories_raises (className : String) (t : Training) :
    (∀ v : ℚ, Training.get_spent_calories className t ≠ Except.ok v)
    ∧ Training.get_spent_calories className t
      = Except.error (("В классе ") ++ className
          ++ (" не определён метод <get_spent_calories>!")) :=
  ⟨fun v h => by simp [Training.get_spent_calories] at h, rfl⟩

/-- Claim C8: the metric methods and `show_training_info` mutate nothing (each
state-passing form returns its receiver unchanged and its pure value), and
calling `show_training_info` twice on any instance yields identical
`InfoMessage` values. -/
theorem show_training_info_idempotent (w : Workout) :
    Workout.get_distanceS w = (Workout.get_distance w, w)
    ∧ Workout.get_mean_speedS w = (Workout.get_mean_speed w, w)
    ∧ Workout.get_spent_caloriesS w = (Workout.get_spent_calories w, w)
    ∧ Workout.show_training_infoS w = (Workout.show_training_info w, w)
    ∧ (Workout.show_training_infoS ((Workout.show_training_infoS w).2)).1
        = (Workout.show_training_infoS w).1 :=
  ⟨rfl, rfl, rfl, rfl, rfl⟩

/-- Claim C9: swimming speed and calories do not depend on `action`: two
Swimming workouts agreeing on duration, weight, pool length and lap count get
equal `get_mean_speed` and `get_spent_calories`, whatever their actions. -/
theorem swimming_action_noninterference (s₁ s₂ : Swimming)
    (hd : s₁.toTraining.duration = s₂.toTraining.duration)
    (hw : s₁.toTraining.weight = s₂.toTraining.weight)
    (hl : s₁.length_pool = s₂.length_pool) (hc : s₁.count_pool = s₂.count_pool) :
    Swimming.get_mean_speed s₁ = Swimming.get_mean_speed s₂
    ∧ Swimming.get_spent_calories s₁ = Swimming.get_spent_calories s₂ := by
  have hsp : Swimming.get_mean_speed s₁ = Swimming.get_mean_speed s₂ := by
    simp only [Swimming.get_mean_speed, hd, hl, hc]
  exact ⟨hsp, by simp only [Swimming.get_spent_calories, hsp, hw]⟩

/-- Claim C9 witness: the sample swim and the same swim with `action` changed
from `720` to `9999` have equal mean speed and calories. -/
theorem swimming_action_noninterference_witness :
    Swimming.get_mean_speed swmSample
      = Swimming.get_mean_speed ⟨⟨9999, 1, 80⟩, 25, 40⟩
    ∧ Swimming.get_spent_calories swmSample
        = Swimming.get_spent_calories ⟨⟨9999, 1, 80⟩, 25, 40⟩ :=
  swimming_action_noninterference swmSample ⟨⟨9999, 1, 80⟩, 25, 40⟩ rfl rfl rfl rfl

/-- Claim C10: in the low-speed regime `mean_speed ^ 2 < height` (with positive
duration and height) the floored term of the race-walking formula vanishes, so
`get_spent_calories` collapses to `0.035 * weight * duration * 60`,
independent of `action` and `height`. -/
theorem sports_walking_low_speed_spec (w : SportsWalking)
    (h1 : 0 < w.toTraining.duration) (h2 : 0 < w.height)
    (h3 : Training.get_mean_speed Training.LEN_STEP w.toTraining ^ 2 < w.height) :
    SportsWalking.get_spent_calories w = 0.035 * w.weight * w.duration * 60 := by
  have hf : ⌊Training.get_mean_speed Training.LEN_STEP w.toTraining ^ 2 / w.height⌋ = 0 := by
    refine Int.floor_eq_zero_iff.mpr ⟨?_, ?_⟩
    · exact div_nonneg (sq_nonneg _) h2.le
    · exact (div_lt_one h2).mpr h3
  simp only [SportsWalking.get_spent_calories, SportsWalking.COEFF_CALORIE_1,
    SportsWalking.COEFF_CALORIE_2, SportsWalking.COEFF_SQUARE, Training.MIN_IN_HOUR, hf]
  push_cast
  ring

/-- Claim C10 witness: on the driver's walking sample the squared speed
`34.2225` is below the height `180`, and the calories reduce to
`0.035 * 75 * 1 * 60`. -/
theorem sports_walking_low_speed_spec_witness :
    SportsWalking.get_spent_calories wlkSample
      = 0.035 * wlkSample.weight * wlkSample.duration * 60 :=
  sports_walking_low_speed_spec wlkSample (by norm_num [wlkSample]) (by norm_num [wlkSample])
    (by norm_num [Training.get_mean_speed, Training.get_distance, Training.LEN_STEP,
      Training.M_IN_KM, wlkSample])

end Homework
